import Mathlib

/-!
# The internal broadcast API (`src/consumer/broadcast.js`)

A shallow embedding of the eight lines of `broadcast.js` and of the parts of
Express they call, followed by the properties of the specification.

The program

* installs the JSON body middleware (`app.use(express.json())`),
* reads `TOKEN = process.env.INTERNAL_TOKEN || 'secret'` once,
* registers `GET /health` and `POST /internal/broadcast`,
* listens on `process.env.PORT || 8080` and logs one line.

What is modelled of the platform:

* `process.env` is a record of optional strings; `||` is JavaScript's, which
  takes its right operand when the left one is `undefined` or `''`.
* A request is indexed by the route Express dispatches it to, and carries the
  value of `req.get('authorization')`, whether its cache validators match the
  response, and what the body middleware looks at: presence of a body, content
  type, charset, content encoding, size, and the text of the body.
* A response is a status code and a body.  `res.status`, `res.send` and
  `res.sendStatus` follow Express: `sendStatus c` sends the status text of `c`
  as the body; `send` turns the response to a fresh request into a 304 and
  drops the body of a 204, 304 or 205.
* `express.json()` follows body-parser with its default options, with its
  refusals 415 (charset, content encoding), 413 (size) and 400 (damaged or
  malformed body).  `JSON.parse` is a parameter (`parses body` says whether it
  returns); the strict-mode test that body-parser runs before it is modelled
  in full.
* JavaScript strings are modelled by `String`.

Two levels are used.  `health` and `broadcast` are the route handlers of lines
4 and 5-8, applied to the request and the response object Express hands them.
`app` is the whole application, with the middleware of line 2 in front of the
handlers; what a client gets for a request is `app` of it.
-/

namespace Broadcast

/-! ## The environment and `||` -/

/-- The two variables the program reads from `process.env`; `none` is an unset
variable (`undefined`), `some s` one set to the string `s`. -/
structure Env where
  INTERNAL_TOKEN : Option String
  PORT : Option String
  deriving DecidableEq, Repr

/-- JavaScript `x || d` with `x` a string or `undefined`, as a value of the
type `α` that holds both operands: `d` when `x` is `undefined` or `''`. -/
def jsOr {α : Type} (inj : String → α) (x : Option String) (d : α) : α :=
  match x with
  | none => d
  | some s => if s = "" then d else inj s

/-! ## Requests -/

/-- The methods of the two registered routes. -/
inductive Method where
  | GET
  | POST
  deriving DecidableEq, Repr

/-- The two routes the program registers: `app.get('/health', ...)` and
`app.post('/internal/broadcast', ...)`. -/
inductive Route where
  | health
  | broadcast
  deriving DecidableEq, Repr

/-- The method of the requests Express hands to the handler of a route. -/
def Route.method : Route → Method
  | .health => .GET
  | .broadcast => .POST

/-- How the body of a request is encoded (`Content-Encoding`): not at all
(header absent or `identity`), in a way body-parser inflates (`gzip`,
`deflate`), or in a way it does not support. -/
inductive Coding where
  | identity
  | inflated
  | unsupported
  deriving DecidableEq, Repr

/-- A request that Express dispatches to `route` (`health`: a GET of `/health`,
`broadcast`: a POST to `/internal/broadcast`), as the program sees it.

* `authorization`: the value of `req.get('authorization')`; `none` is
  `undefined`, the header being absent.
* `revalidates`: its cache validators match the response being sent (an
  `If-None-Match` header that is `*` or names the ETag Express computes for
  the body, and no `Cache-Control: no-cache`).
* `hasBody`: it has a `Content-Length` or `Transfer-Encoding` header.
* `jsonType`: its `Content-Type` is `application/json`.
* `charset`: the charset parameter of its `Content-Type` in lower case, `""`
  when there is none.
* `decodable`: iconv-lite has a decoder for that charset (it has one for
  `utf-8`, the charset of a request that names none).
* `coding`: its `Content-Encoding`.
* `size`: the number of bytes of its body (`Content-Length` for an unencoded
  body, the inflated size for an encoded one).
* `intact`: the body arrives whole (as long as announced, not aborted, and
  inflating without error).
* `body`: the decoded text of the body.

The defaults describe a request without a body and without cache
validators. -/
structure Request (route : Route) where
  authorization : Option String
  revalidates : Bool := false
  hasBody : Bool := false
  jsonType : Bool := false
  charset : String := ""
  decodable : Bool := true
  coding : Coding := .identity
  size : Nat := 0
  intact : Bool := true
  body : String := ""
  deriving DecidableEq, Repr

/-- Express `req.fresh` when a response with status `statusCode` is about to
be sent: false unless the method is GET and the status is 2xx or 304, and then
the outcome of comparing the cache validators. -/
def Request.fresh {route : Route} (req : Request route) (statusCode : Nat) : Bool :=
  if route.method ≠ .GET then false
  else if (200 ≤ statusCode ∧ statusCode < 300) ∨ statusCode = 304 then req.revalidates
  else false

/-- A request to either route. -/
structure Incoming where
  route : Route
  req : Request route

/-! ## Responses -/

/-- An HTTP response as the client sees it: status code and body text. -/
structure Response where
  status : Nat
  body : String
  deriving DecidableEq, Repr

/-- The table `statuses.message` that `res.sendStatus` looks the body up in. -/
def statusMessage (code : Nat) : Option String :=
  match code with
  | 100 => some "Continue"
  | 101 => some "Switching Protocols"
  | 102 => some "Processing"
  | 103 => some "Early Hints"
  | 200 => some "OK"
  | 201 => some "Created"
  | 202 => some "Accepted"
  | 203 => some "Non-Authoritative Information"
  | 204 => some "No Content"
  | 205 => some "Reset Content"
  | 206 => some "Partial Content"
  | 207 => some "Multi-Status"
  | 208 => some "Already Reported"
  | 226 => some "IM Used"
  | 300 => some "Multiple Choices"
  | 301 => some "Moved Permanently"
  | 302 => some "Found"
  | 303 => some "See Other"
  | 304 => some "Not Modified"
  | 305 => some "Use Proxy"
  | 307 => some "Temporary Redirect"
  | 308 => some "Permanent Redirect"
  | 400 => some "Bad Request"
  | 401 => some "Unauthorized"
  | 402 => some "Payment Required"
  | 403 => some "Forbidden"
  | 404 => some "Not Found"
  | 405 => some "Method Not Allowed"
  | 406 => some "Not Acceptable"
  | 407 => some "Proxy Authentication Required"
  | 408 => some "Request Timeout"
  | 409 => some "Conflict"
  | 410 => some "Gone"
  | 411 => some "Length Required"
  | 412 => some "Precondition Failed"
  | 413 => some "Payload Too Large"
  | 414 => some "URI Too Long"
  | 415 => some "Unsupported Media Type"
  | 416 => some "Range Not Satisfiable"
  | 417 => some "Expectation Failed"
  | 418 => some "I\x27m a Teapot"
  | 421 => some "Misdirected Request"
  | 422 => some "Unprocessable Entity"
  | 423 => some "Locked"
  | 424 => some "Failed Dependency"
  | 425 => some "Too Early"
  | 426 => some "Upgrade Required"
  | 428 => some "Precondition Required"
  | 429 => some "Too Many Requests"
  | 431 => some "Request Header Fields Too Large"
  | 451 => some "Unavailable For Legal Reasons"
  | 500 => some "Internal Server Error"
  | 501 => some "Not Implemented"
  | 502 => some "Bad Gateway"
  | 503 => some "Service Unavailable"
  | 504 => some "Gateway Timeout"
  | 505 => some "HTTP Version Not Supported"
  | 506 => some "Variant Also Negotiates"
  | 507 => some "Insufficient Storage"
  | 508 => some "Loop Detected"
  | 509 => some "Bandwidth Limit Exceeded"
  | 510 => some "Not Extended"
  | 511 => some "Network Authentication Required"
  | _ => none

/-- The response object `res` before it is sent: the request it answers
(`res.req`) and its status code, 200 until the handler sets another. -/
structure Res (route : Route) where
  req : Request route
  statusCode : Nat := 200
  deriving DecidableEq, Repr

/-- The response object Express hands to the handler together with `req`. -/
def Res.init {route : Route} (req : Request route) : Res route :=
  { req := req }

/-- Express `res.status(code)`: set the status code, return `res`. -/
def Res.status {route : Route} (res : Res route) (code : Nat) : Res route :=
  { res with statusCode := code }

/-- Express `res.send(body)` for a string body: `if (req.fresh)
this.statusCode = 304`, then the body of a response whose status is 204, 304
or 205 is replaced by the empty string. -/
def Res.send {route : Route} (res : Res route) (body : String) : Response :=
  let res := if res.req.fresh res.statusCode then res.status 304 else res
  if res.statusCode = 204 ∨ res.statusCode = 304 ∨ res.statusCode = 205 then
    { status := res.statusCode, body := "" }
  else
    { status := res.statusCode, body := body }

/-- Express `res.sendStatus(code)`: the body is the status text of `code`, or
the code in decimal when the table has none; then `status(code).send(body)`. -/
def Res.sendStatus {route : Route} (res : Res route) (code : Nat) : Response :=
  let body := (statusMessage code).getD (toString code)
  (res.status code).send body

/-! ## The JSON body middleware -/

/-- The white space body-parser skips in front of a JSON text. -/
def isJsonSpace (c : Char) : Bool :=
  c = ' ' || c = '\t' || c = '\n' || c = '\r'

/-- The `firstchar` of body-parser: the first character of the body that is
not JSON white space, if there is one. -/
def firstchar (body : String) : Option Char :=
  (body.toList.dropWhile isJsonSpace).head?

/-- The `parse` of body-parser's JSON parser with its default options
(`strict: true`), as success or failure: an empty body is accepted, a body
whose first character is neither an opening brace nor an opening bracket is
refused, and the rest is left to `JSON.parse`, here the parameter `parses`. -/
def parse (parses : String → Bool) (body : String) : Bool :=
  if body.length = 0 then true
  else if firstchar body ≠ some '{' ∧ firstchar body ≠ some '[' then false
  else parses body

/-- The default `limit` of `express.json()`: `'100kb'`, in bytes. -/
def limit : Nat := 102400

/-- Reading the body (`read` of body-parser over raw-body): `none` when the
text is read, `some status` for the error it ends with.  An unencoded body
that announces more than the limit is refused before its charset is looked
up; an encoded one is counted while it is inflated, after that. -/
def readBody {route : Route} (req : Request route) : Option Nat :=
  match req.coding with
  | .unsupported => some 415
  | .identity =>
    if req.size > limit then some 413
    else if !req.decodable then some 415
    else if !req.intact then some 400
    else none
  | .inflated =>
    if !req.decodable then some 415
    else if req.size > limit then some 413
    else if !req.intact then some 400
    else none

/-- The middleware `express.json()` of line 2: `none` when it calls `next()`
and the request goes on to its route, `some status` when it calls `next(err)`
with an error of that HTTP status.  Requests without a body and requests whose
content type is not JSON are passed on unread; a charset that does not start
with `utf-` is refused with 415; then the body is read and parsed. -/
def expressJson {route : Route} (parses : String → Bool) (req : Request route) :
    Option Nat :=
  if !req.hasBody then none
  else if !req.jsonType then none
  else
    let charset := if req.charset = "" then "utf-8" else req.charset
    if charset.take 4 ≠ "utf-" then some 415
    else
      match readBody req with
      | some status => some status
      | none => if parse parses req.body then none else some 400

/-- What the application does with a request: a route handler sends a
response, or a middleware error reaches the default error handler of Express,
which answers with the status of the error and an error page. -/
inductive Outcome where
  | sent (r : Response)
  | failed (status : Nat)
  deriving DecidableEq, Repr

/-- The status code of the answer the client receives. -/
def Outcome.status : Outcome → Nat
  | .sent r => r.status
  | .failed status => status

/-! ## The program -/

/-- Line 3: `const TOKEN = process.env.INTERNAL_TOKEN || 'secret'`. -/
def TOKEN (env : Env) : String :=
  jsOr id env.INTERNAL_TOKEN "secret"

/-- Line 4: the handler of `GET /health`, `res.status(200).send('OK')`. -/
def health (_req : Request .health) (res : Res .health) : Response :=
  (res.status 200).send "OK"

/-- Lines 5-8: the handler of `POST /internal/broadcast`, with the token it
closes over as a parameter. -/
def broadcast (token : String) (req : Request .broadcast) (res : Res .broadcast) :
    Response :=
  if req.authorization ≠ some ("Bearer " ++ token) then res.sendStatus 401
  else res.sendStatus 204

/-- The handler registered for each route (lines 4 and 5); the closures share
the one token. -/
def handler (token : String) : (route : Route) → Request route → Res route → Response
  | .health => health
  | .broadcast => broadcast token

/-- The application of lines 2-8: the JSON middleware first, then the handler
of the route, with the response object of the request. -/
def app {route : Route} (parses : String → Bool) (token : String)
    (req : Request route) : Outcome :=
  match expressJson parses req with
  | some status => .failed status
  | none => .sent (handler token route req (Res.init req))

/-! ## Startup -/

/-- The first argument of `app.listen`: a string from the environment or the
number 8080. -/
inductive PortArg where
  | str (s : String)
  | num (n : Nat)
  deriving DecidableEq, Repr

/-- Line 9, first argument: `process.env.PORT || 8080`. -/
def listenArg (env : Env) : PortArg :=
  jsOr PortArg.str env.PORT (PortArg.num 8080)

/-- The white space `Number()` strips from both ends of a string. -/
def isStrWhiteSpace (c : Char) : Bool :=
  let n := c.toNat
  n = 0x09 || n = 0x0A || n = 0x0B || n = 0x0C || n = 0x0D || n = 0x20 || n = 0xA0 ||
  n = 0x1680 || (0x2000 ≤ n && n ≤ 0x200A) || n = 0x2028 || n = 0x2029 ||
  n = 0x202F || n = 0x205F || n = 0x3000 || n = 0xFEFF

/-- The value of a digit in a base up to 16, if it is one. -/
def digitValue (base : Nat) (c : Char) : Option Nat :=
  let v :=
    if '0' ≤ c ∧ c ≤ '9' then c.toNat - 48
    else if 'a' ≤ c ∧ c ≤ 'f' then c.toNat - 87
    else if 'A' ≤ c ∧ c ≤ 'F' then c.toNat - 55
    else 16
  if v < base then some v else none

/-- The value of a non-empty sequence of digits in `base`. -/
def digitsValue (base : Nat) (cs : List Char) : Option Nat :=
  if cs = [] then none
  else cs.foldl
    (fun acc c => acc.bind fun n => (digitValue base c).map fun v => base * n + v)
    (some 0)

/-- The exponent part of a decimal literal, after the mantissa: nothing, or
`e` or `E`, an optional sign and digits.  The result is the sign (true for
minus) and the magnitude. -/
def exponentPart (cs : List Char) : Option (Bool × Nat) :=
  match cs with
  | [] => some (false, 0)
  | c :: rest =>
    if c = 'e' ∨ c = 'E' then
      match rest with
      | '-' :: ds => (digitsValue 10 ds).map fun n => (true, n)
      | '+' :: ds => (digitsValue 10 ds).map fun n => (false, n)
      | ds => (digitsValue 10 ds).map fun n => (false, n)
    else none

/-- The value of an unsigned decimal literal of `Number()` (digits, an optional
fraction, an optional exponent) when that value is a whole number below
1000000: the whole number.  `none` for every other text. -/
def decimalWhole (cs : List Char) : Option Nat :=
  let whole := cs.takeWhile Char.isDigit
  let afterWhole := cs.dropWhile Char.isDigit
  let frac :=
    match afterWhole with
    | '.' :: rest => rest.takeWhile Char.isDigit
    | _ => []
  let afterFrac :=
    match afterWhole with
    | '.' :: rest => rest.dropWhile Char.isDigit
    | other => other
  if whole = [] ∧ frac = [] then none
  else
    match digitsValue 10 ('0' :: (whole ++ frac)), exponentPart afterFrac with
    | some m, some (negative, e) =>
      let up := if negative then 0 else e
      let down := frac.length + (if negative then e else 0)
      if m = 0 then some 0
      else if down ≤ up then
        if up - down > 5 then none else
          let v := m * 10 ^ (up - down)
          if v < 1000000 then some v else none
      else if down - up > (whole ++ frac).length then none
      else if m % 10 ^ (down - up) = 0 then
        let v := m / 10 ^ (down - up)
        if v < 1000000 then some v else none
      else none
    | _, _ => none

/-- The whole number below 1000000 that `Number(s)` gives for a string, when it
gives one: white space is stripped, then the text is a hexadecimal, octal or
binary literal, or a decimal literal with an optional plus sign.  `none` for
every other string: a negative number, `NaN`, `Infinity`, a number of 1000000
or more, or a number with a fraction. -/
def wholeNumber (s : String) : Option Nat :=
  let cs := ((s.toList.dropWhile isStrWhiteSpace).reverse.dropWhile isStrWhiteSpace).reverse
  match cs with
  | [] => some 0
  | '0' :: 'x' :: ds => (digitsValue 16 ds).bind fun v => if v < 1000000 then some v else none
  | '0' :: 'X' :: ds => (digitsValue 16 ds).bind fun v => if v < 1000000 then some v else none
  | '0' :: 'o' :: ds => (digitsValue 8 ds).bind fun v => if v < 1000000 then some v else none
  | '0' :: 'O' :: ds => (digitsValue 8 ds).bind fun v => if v < 1000000 then some v else none
  | '0' :: 'b' :: ds => (digitsValue 2 ds).bind fun v => if v < 1000000 then some v else none
  | '0' :: 'B' :: ds => (digitsValue 2 ds).bind fun v => if v < 1000000 then some v else none
  | '+' :: ds => decimalWhole ds
  | ds => decimalWhole ds

/-- The TCP port `app.listen` binds for its argument, when the argument fixes
one: a number from 1 to 65535, given as a number or as a string that
`Number()` reads as one.  `none` when the argument fixes no port: 0 leaves the
choice of the port to the system, a negative or non-numeric string is taken as
the name of a pipe, and `listen` throws on a number above 65535, on a number
with a fraction and on a blank string.  (A decimal literal is read exactly; one
with a fraction so small that `Number()` rounds it away is not modelled.) -/
def PortArg.port : PortArg → Option Nat
  | .num n => if 1 ≤ n ∧ n ≤ 65535 then some n else none
  | .str s =>
    match wholeNumber s with
    | some n => if 1 ≤ n ∧ n ≤ 65535 then some n else none
    | none => none

/-- Line 9, the callback: `console.log('internal API on :8080')`. -/
def startupLog (_env : Env) : String :=
  "internal API on :8080"

/-- The line that names port `p` in the format of the startup log. -/
def portLine (p : Nat) : String :=
  "internal API on :" ++ toString p

/-! ## The running process -/

/-- The state of the running process: the token read at startup. -/
structure Server where
  token : String
  deriving DecidableEq, Repr

/-- Process start: the token is read from the environment, once. -/
def boot (env : Env) : Server :=
  { token := TOKEN env }

/-- Handling one request: the outcome, and the state afterwards.  No handler
assigns to `TOKEN` (a `const`), so the state is handed on as it is. -/
def Server.handle (parses : String → Bool) (s : Server) (x : Incoming) :
    Outcome × Server :=
  (app parses s.token x.req, s)

/-- Handling a sequence of requests in order, threading the state. -/
def Server.run (parses : String → Bool) (s : Server) :
    List Incoming → List Outcome × Server
  | [] => ([], s)
  | x :: rest =>
    let step := s.handle parses x
    let tail := step.2.run parses rest
    (step.1 :: tail.1, tail.2)

/-! ## Basic facts about the model -/

theorem bearer_cancel {a b : String} (h : "Bearer " ++ a = "Bearer " ++ b) : a = b := by
  have hd := congrArg String.data h
  simp only [String.data_append] at hd
  exact String.ext (List.append_cancel_left hd)

theorem statusMessage_401 : statusMessage 401 = some "Unauthorized" := by decide

theorem fresh_of_post (req : Request .broadcast) (code : Nat) : req.fresh code = false := by
  simp [Request.fresh, Route.method]

theorem sendStatus_204 (res : Res .broadcast) :
    res.sendStatus 204 = { status := 204, body := "" } := by
  simp [Res.sendStatus, Res.status, Res.send, fresh_of_post]

theorem sendStatus_401 {route : Route} (res : Res route) :
    res.sendStatus 401 = { status := 401, body := "Unauthorized" } := by
  simp [Res.sendStatus, Res.status, Res.send, Request.fresh, statusMessage_401]

theorem broadcast_of_match {token : String} {req : Request .broadcast} (res : Res .broadcast)
    (h : req.authorization = some ("Bearer " ++ token)) :
    broadcast token req res = { status := 204, body := "" } := by
  simp [broadcast, h, sendStatus_204]

theorem broadcast_of_mismatch {token : String} {req : Request .broadcast}
    (res : Res .broadcast) (h : req.authorization ≠ some ("Bearer " ++ token)) :
    broadcast token req res = { status := 401, body := "Unauthorized" } := by
  simp [broadcast, h, sendStatus_401]

theorem health_of_stale (req : Request .health) {res : Res .health}
    (h : res.req.revalidates = false) :
    health req res = { status := 200, body := "OK" } := by
  simp [health, Res.status, Res.send, Request.fresh, h]

theorem health_of_fresh (req : Request .health) {res : Res .health}
    (h : res.req.revalidates = true) :
    health req res = { status := 304, body := "" } := by
  simp [health, Res.status, Res.send, Request.fresh, Route.method, h]

theorem TOKEN_unset (port : Option String) :
    TOKEN { INTERNAL_TOKEN := none, PORT := port } = "secret" := rfl

theorem TOKEN_empty (port : Option String) :
    TOKEN { INTERNAL_TOKEN := some "", PORT := port } = "secret" := by
  simp [TOKEN, jsOr]

theorem TOKEN_set {t : String} (port : Option String) (h : t ≠ "") :
    TOKEN { INTERNAL_TOKEN := some t, PORT := port } = t := by
  simp [TOKEN, jsOr, h]

theorem TOKEN_ne_empty (env : Env) : TOKEN env ≠ "" := by
  unfold TOKEN jsOr
  split
  · decide
  · split
    · decide
    · assumption

theorem mismatch_of_ne {t u : String} {auth : Option String}
    (h : auth = some ("Bearer " ++ u)) (hne : t ≠ u) :
    auth ≠ some ("Bearer " ++ t) := by
  rw [h]
  intro heq
  exact hne (bearer_cancel (Option.some.inj heq)).symm

theorem parse_short (parses : String → Bool) : parse parses "x" = false := by
  have hf : firstchar "x" = some 'x' := by decide
  have hl : "x".length = 1 := by decide
  simp [parse, hf, hl]

theorem utf8_start : ("utf-8" : String).take 4 = "utf-" := by decide

theorem expressJson_of_no_body {route : Route} (parses : String → Bool)
    {req : Request route} (h : req.hasBody = false) : expressJson parses req = none := by
  simp [expressJson, h]

theorem expressJson_of_malformed {route : Route} (parses : String → Bool)
    {req : Request route} (hb : req.hasBody = true) (hj : req.jsonType = true)
    (hc : req.charset = "") (hcod : req.coding = .identity) (hs : req.size ≤ limit)
    (hd : req.decodable = true) (hi : req.intact = true)
    (hp : parse parses req.body = false) :
    expressJson parses req = some 400 := by
  simp [expressJson, readBody, hb, hj, hc, hcod, hd, hi, hp, utf8_start, Nat.not_lt.mpr hs]

theorem expressJson_of_large {route : Route} (parses : String → Bool)
    {req : Request route} (hb : req.hasBody = true) (hj : req.jsonType = true)
    (hc : req.charset = "") (hcod : req.coding = .identity) (hs : limit < req.size) :
    expressJson parses req = some 413 := by
  simp [expressJson, readBody, hb, hj, hc, hcod, utf8_start, hs]

theorem expressJson_of_charset {route : Route} (parses : String → Bool)
    {req : Request route} (hb : req.hasBody = true) (hj : req.jsonType = true)
    (hne : req.charset ≠ "") (hc : req.charset.take 4 ≠ "utf-") :
    expressJson parses req = some 415 := by
  simp [expressJson, hb, hj, hne, hc]

theorem readBody_status {route : Route} {req : Request route} {status : Nat}
    (h : readBody req = some status) : status = 400 ∨ status = 413 ∨ status = 415 := by
  unfold readBody at h
  cases hc : req.coding <;> rw [hc] at h <;> simp only at h <;> (try split_ifs at h) <;>
    (injection h with h; omega)

theorem expressJson_status {route : Route} {parses : String → Bool}
    {req : Request route} {status : Nat} (h : expressJson parses req = some status) :
    status = 400 ∨ status = 413 ∨ status = 415 := by
  unfold expressJson at h
  simp only at h
  split_ifs at h <;> (try (injection h with h; omega))
  all_goals
    cases hr : readBody req with
    | some s =>
      rw [hr] at h
      injection h with h
      have := readBody_status hr
      omega
    | none =>
      rw [hr] at h
      first
        | (injection h with h; omega)
        | cases h

theorem expressJson_eq_none_iff {route : Route} (parses : String → Bool)
    (req : Request route) :
    expressJson parses req = none ↔
      req.hasBody = false ∨ req.jsonType = false ∨
        ((if req.charset = "" then "utf-8" else req.charset).take 4 = "utf-" ∧
          readBody req = none ∧ parse parses req.body = true) := by
  unfold expressJson
  simp only
  generalize (if req.charset = "" then "utf-8" else req.charset) = cs
  cases req.hasBody <;> cases req.jsonType <;> simp
  by_cases hc : cs.take 4 = "utf-" <;> cases readBody req <;>
    cases parse parses req.body <;> simp [hc]

theorem expressJson_authorization {route : Route} (parses : String → Bool)
    (req : Request route) (auth : Option String) :
    expressJson parses ({ req with authorization := auth } : Request route)
      = expressJson parses req := rfl

theorem app_of_pass {route : Route} {parses : String → Bool} {req : Request route}
    (token : String) (h : expressJson parses req = none) :
    app parses token req = .sent (handler token route req (Res.init req)) := by
  simp [app, h]

theorem app_of_reject {route : Route} {parses : String → Bool} {req : Request route}
    {status : Nat} (token : String) (h : expressJson parses req = some status) :
    app parses token req = .failed status := by
  simp [app, h]

theorem app_of_match {parses : String → Bool} {token : String}
    {req : Request .broadcast} (hpass : expressJson parses req = none)
    (h : req.authorization = some ("Bearer " ++ token)) :
    app parses token req = .sent { status := 204, body := "" } := by
  rw [app_of_pass token hpass]
  simp [handler, broadcast_of_match _ h]

theorem app_of_mismatch {parses : String → Bool} {token : String}
    {req : Request .broadcast} (hpass : expressJson parses req = none)
    (h : req.authorization ≠ some ("Bearer " ++ token)) :
    app parses token req = .sent { status := 401, body := "Unauthorized" } := by
  rw [app_of_pass token hpass]
  simp [handler, broadcast_of_mismatch _ h]

theorem app_of_short {route : Route} (parses : String → Bool) (token : String)
    (auth : Option String) :
    app parses token
      ({ authorization := auth, hasBody := true, jsonType := true, size := 1,
         body := "x" } : Request route) = .failed 400 := by
  apply app_of_reject
  apply expressJson_of_malformed parses rfl rfl rfl rfl _ rfl rfl (parse_short parses)
  show 1 ≤ limit
  decide

/-! ## The broadcast route: authorization -/

/-- C1: for every token `t` and every POST request to /internal/broadcast whose
Authorization header is exactly "Bearer " followed by `t`, the broadcast
handler responds with status 204 and an empty body. -/
theorem broadcast_authorized (t : String) (req : Request .broadcast) (res : Res .broadcast)
    (h : req.authorization = some ("Bearer " ++ t)) :
    broadcast t req res = { status := 204, body := "" } :=
  broadcast_of_match res h

theorem broadcast_authorized_witness :
    broadcast "secret" { authorization := some "Bearer secret" }
      (Res.init { authorization := some "Bearer secret" })
      = { status := 204, body := "" } :=
  broadcast_authorized "secret" _ _ (by decide)

/-- C2, as stated, fails: a POST to /internal/broadcast without an
Authorization header, with a JSON content type and the body "x", is answered
with status 400 by the JSON middleware, not with 401, whatever `JSON.parse`
accepts. -/
theorem bad_header_bad_body :
    ({ authorization := none, hasBody := true, jsonType := true, size := 1,
       body := "x" } : Request .broadcast).authorization ≠ some ("Bearer " ++ "secret") ∧
    ∀ parses : String → Bool,
      (app parses "secret"
        ({ authorization := none, hasBody := true, jsonType := true, size := 1,
           body := "x" } : Request .broadcast)).status = 400 := by
  refine ⟨by decide, fun parses => ?_⟩
  rw [app_of_short parses "secret" none]
  rfl

/-- C2, amended: for every token `t` and every POST request to
/internal/broadcast that the JSON middleware lets through to the handler and
whose Authorization header is anything but exactly "Bearer " followed by `t`
(absent, empty, without the prefix, another token, another case, extra white
space), the response is the 401 of the handler, and all these requests get one
and the same response. -/
theorem broadcast_unauthorized (parses : String → Bool) (t : String)
    (req : Request .broadcast)
    (hpass : expressJson parses req = none)
    (h : req.authorization ≠ some ("Bearer " ++ t)) :
    (app parses t req).status = 401 ∧
    ∀ req2 : Request .broadcast, expressJson parses req2 = none →
      req2.authorization ≠ some ("Bearer " ++ t) →
      app parses t req2 = app parses t req := by
  refine ⟨?_, fun req2 hpass2 h2 => ?_⟩
  · rw [app_of_mismatch hpass h]
    rfl
  · rw [app_of_mismatch hpass h, app_of_mismatch hpass2 h2]

theorem broadcast_unauthorized_witness :
    (app (fun _ => false) "secret"
      ({ authorization := none, hasBody := true, jsonType := true, size := 0,
         body := "" } : Request .broadcast)).status = 401 ∧
    ∀ req2 : Request .broadcast, expressJson (fun _ => false) req2 = none →
      req2.authorization ≠ some ("Bearer " ++ "secret") →
      app (fun _ => false) "secret" req2 =
        app (fun _ => false) "secret"
          ({ authorization := none, hasBody := true, jsonType := true, size := 0,
             body := "" } : Request .broadcast) :=
  broadcast_unauthorized (fun _ => false) "secret" _ (by decide) (by decide)

/-- C3, as stated, fails: the response to a POST without an Authorization
header, with the default token, is a 401 whose body is the text "Unauthorized",
not the empty string. -/
theorem unauthorized_body_not_empty :
    broadcast "secret" { authorization := none } (Res.init { authorization := none })
      = { status := 401, body := "Unauthorized" } ∧
    (broadcast "secret" { authorization := none }
      (Res.init { authorization := none })).body ≠ "" := by
  decide

/-- C3, amended: for every token `t`, the response of the handler of POST
/internal/broadcast to a request that fails authorization is the 401 that
`res.sendStatus(401)` produces, whose body is the status text "Unauthorized". -/
theorem unauthorized_response (t : String) (req : Request .broadcast) (res : Res .broadcast)
    (h : req.authorization ≠ some ("Bearer " ++ t)) :
    broadcast t req res = { status := 401, body := "Unauthorized" } :=
  broadcast_of_mismatch res h

theorem unauthorized_response_witness :
    broadcast "secret" { authorization := some "Bearer wrong" }
      (Res.init { authorization := some "Bearer wrong" })
      = { status := 401, body := "Unauthorized" } :=
  unauthorized_response "secret" _ _ (by decide)

/-! ## The health route -/

/-- C4, as stated, fails: a GET of /health that revalidates a cached copy
(`If-None-Match: *`) is answered 304 with an empty body, and a GET of /health
with a JSON content type and the body "x" is answered 400 by the JSON
middleware. -/
theorem health_not_always_ok :
    (∀ parses : String → Bool,
      app parses "secret" ({ authorization := none, revalidates := true } : Request .health)
        = .sent { status := 304, body := "" }) ∧
    (∀ parses : String → Bool,
      app parses "secret"
        ({ authorization := none, hasBody := true, jsonType := true, size := 1,
           body := "x" } : Request .health)
        = .failed 400) := by
  refine ⟨fun parses => ?_, fun parses => app_of_short parses "secret" none⟩
  rw [app_of_pass "secret" (expressJson_of_no_body parses rfl)]
  simp only [handler]
  rw [health_of_fresh _ rfl]

/-- C4, amended: for every GET request to /health that is not a cache
revalidation Express finds fresh and that the JSON middleware lets through,
whatever its Authorization header and whatever the configured token, the
response has status 200 and body exactly "OK". -/
theorem health_ok (parses : String → Bool) (t : String) (req : Request .health)
    (hpass : expressJson parses req = none)
    (hstale : req.revalidates = false) :
    app parses t req = .sent { status := 200, body := "OK" } := by
  rw [app_of_pass t hpass]
  simp only [handler]
  rw [health_of_stale req (by simpa [Res.init] using hstale)]

theorem health_ok_witness :
    app (fun _ => false) "secret"
      ({ authorization := some "Bearer wrong", hasBody := true, jsonType := true,
         size := 0, body := "" } : Request .health)
      = .sent { status := 200, body := "OK" } :=
  health_ok (fun _ => false) "secret" _ (by decide) rfl

/-! ## The token and the environment -/

/-- C5, as stated, fails: with INTERNAL_TOKEN set to "secret", and with
INTERNAL_TOKEN set to the empty string, a POST with the header "Bearer secret"
is answered 204. -/
theorem secret_accepted_while_set :
    (∀ parses : String → Bool,
      (app parses (TOKEN { INTERNAL_TOKEN := some "secret", PORT := none })
        ({ authorization := some "Bearer secret" } : Request .broadcast)).status = 204) ∧
    (∀ parses : String → Bool,
      (app parses (TOKEN { INTERNAL_TOKEN := some "", PORT := none })
        ({ authorization := some "Bearer secret" } : Request .broadcast)).status = 204) := by
  constructor <;> intro parses <;>
    rw [app_of_match (expressJson_of_no_body parses rfl) (by decide)] <;> rfl

/-- C5, amended: a POST to /internal/broadcast with the header "Bearer secret"
that the JSON middleware lets through is accepted (204) when INTERNAL_TOKEN is
unset, set to the empty string or set to "secret", and it is rejected with 401
in every environment in which INTERNAL_TOKEN is set to any other value. -/
theorem secret_accepted_iff (parses : String → Bool) (env : Env) (req : Request .broadcast)
    (hpass : expressJson parses req = none)
    (h : req.authorization = some "Bearer secret") :
    ((env.INTERNAL_TOKEN = none ∨ env.INTERNAL_TOKEN = some "" ∨
        env.INTERNAL_TOKEN = some "secret") →
      app parses (TOKEN env) req = .sent { status := 204, body := "" }) ∧
    (∀ t : String, env.INTERNAL_TOKEN = some t → t ≠ "" → t ≠ "secret" →
      (app parses (TOKEN env) req).status = 401) := by
  obtain ⟨tok, port⟩ := env
  constructor
  · intro hcase
    have htok : TOKEN { INTERNAL_TOKEN := tok, PORT := port } = "secret" := by
      rcases hcase with h0 | h0 | h0 <;> simp only at h0 <;> subst h0
      · exact TOKEN_unset port
      · exact TOKEN_empty port
      · exact TOKEN_set port (by decide)
    rw [htok]
    exact app_of_match hpass h
  · intro t ht hne hsec
    simp only at ht
    subst ht
    rw [TOKEN_set port hne, app_of_mismatch hpass (mismatch_of_ne h hsec)]
    rfl

theorem secret_accepted_iff_witness :
    (app (fun _ => false) (TOKEN { INTERNAL_TOKEN := some "xyz", PORT := none })
      ({ authorization := some "Bearer secret", hasBody := true, jsonType := true,
         size := 0, body := "" } : Request .broadcast)).status = 401 :=
  (secret_accepted_iff (fun _ => false) { INTERNAL_TOKEN := some "xyz", PORT := none }
    { authorization := some "Bearer secret", hasBody := true, jsonType := true,
      size := 0, body := "" } (by decide) rfl).2
    "xyz" rfl (by decide) (by decide)

/-- C6, as stated, fails for the value `t = ""`: with INTERNAL_TOKEN set to the
empty string the token is "secret" and not that value, a POST with the header
"Bearer " followed by `t` is answered 401, and one with "Bearer secret" is
answered 204 although `t` differs from "secret". -/
theorem empty_token_not_used :
    TOKEN { INTERNAL_TOKEN := some "", PORT := none } ≠ "" ∧
    (∀ parses : String → Bool,
      (app parses (TOKEN { INTERNAL_TOKEN := some "", PORT := none })
        ({ authorization := some ("Bearer " ++ "") } : Request .broadcast)).status = 401) ∧
    ("" : String) ≠ "secret" ∧
    (∀ parses : String → Bool,
      (app parses (TOKEN { INTERNAL_TOKEN := some "", PORT := none })
        ({ authorization := some "Bearer secret" } : Request .broadcast)).status = 204) := by
  refine ⟨by decide, fun parses => ?_, by decide, fun parses => ?_⟩
  · rw [app_of_mismatch (expressJson_of_no_body parses rfl) (by decide)]
    rfl
  · rw [app_of_match (expressJson_of_no_body parses rfl) (by decide)]
    rfl

/-- C6, amended: the token is the value of INTERNAL_TOKEN when that variable is
set to a non-empty string and "secret" when it is unset.  For POSTs that the
JSON middleware lets through: with INTERNAL_TOKEN unset, "Bearer secret" yields
204; with INTERNAL_TOKEN set to a non-empty `t`, "Bearer " followed by `t`
yields 204 and, when `t` differs from "secret", "Bearer secret" yields 401. -/
theorem token_from_env (parses : String → Bool) (t : String) (port : Option String)
    (reqSecret reqT : Request .broadcast)
    (hps : expressJson parses reqSecret = none)
    (hpt : expressJson parses reqT = none)
    (hs : reqSecret.authorization = some "Bearer secret")
    (ht : reqT.authorization = some ("Bearer " ++ t))
    (hne : t ≠ "") :
    TOKEN { INTERNAL_TOKEN := none, PORT := port } = "secret" ∧
    (app parses (TOKEN { INTERNAL_TOKEN := none, PORT := port }) reqSecret).status = 204 ∧
    TOKEN { INTERNAL_TOKEN := some t, PORT := port } = t ∧
    (app parses (TOKEN { INTERNAL_TOKEN := some t, PORT := port }) reqT).status = 204 ∧
    (t ≠ "secret" →
      (app parses (TOKEN { INTERNAL_TOKEN := some t, PORT := port }) reqSecret).status
        = 401) := by
  refine ⟨TOKEN_unset port, ?_, TOKEN_set port hne, ?_, ?_⟩
  · rw [TOKEN_unset port, app_of_match hps hs]
    rfl
  · rw [TOKEN_set port hne, app_of_match hpt ht]
    rfl
  · intro hsec
    rw [TOKEN_set port hne, app_of_mismatch hps (mismatch_of_ne hs hsec)]
    rfl

theorem token_from_env_witness :
    TOKEN { INTERNAL_TOKEN := none, PORT := none } = "secret" ∧
    (app (fun _ => false) (TOKEN { INTERNAL_TOKEN := none, PORT := none })
      ({ authorization := some "Bearer secret", hasBody := true, jsonType := true,
         size := 0, body := "" } : Request .broadcast)).status = 204 ∧
    TOKEN { INTERNAL_TOKEN := some "xyz", PORT := none } = "xyz" ∧
    (app (fun _ => false) (TOKEN { INTERNAL_TOKEN := some "xyz", PORT := none })
      ({ authorization := some ("Bearer " ++ "xyz") } : Request .broadcast)).status = 204 ∧
    ("xyz" ≠ "secret" →
      (app (fun _ => false) (TOKEN { INTERNAL_TOKEN := some "xyz", PORT := none })
        ({ authorization := some "Bearer secret", hasBody := true, jsonType := true,
           size := 0, body := "" } : Request .broadcast)).status = 401) :=
  token_from_env (fun _ => false) "xyz" none
    { authorization := some "Bearer secret", hasBody := true, jsonType := true,
      size := 0, body := "" }
    { authorization := some ("Bearer " ++ "xyz") }
    (by decide) (by decide) rfl rfl (by decide)

/-- C10, as stated, fails in its last part: in every environment, a POST to
/internal/broadcast with the header "Bearer ", a JSON content type and the body
"x" is answered with status 400 by the JSON middleware, not with 401. -/
theorem empty_bearer_bad_body :
    ({ authorization := some "Bearer ", hasBody := true, jsonType := true, size := 1,
       body := "x" } : Request .broadcast).authorization = some "Bearer " ∧
    ∀ (parses : String → Bool) (env : Env),
      (app parses (TOKEN env)
        ({ authorization := some "Bearer ", hasBody := true, jsonType := true, size := 1,
           body := "x" } : Request .broadcast)).status = 400 := by
  refine ⟨rfl, fun parses env => ?_⟩
  rw [app_of_short parses (TOKEN env) (some "Bearer ")]
  rfl

/-- C10, amended: in every environment (INTERNAL_TOKEN unset, empty or any
other string) the token read at startup is not the empty string, an empty
INTERNAL_TOKEN gives the token "secret", and a POST to /internal/broadcast with
the header "Bearer " (nothing after the blank) that the JSON middleware lets
through is rejected with 401. -/
theorem token_never_empty (parses : String → Bool) (env : Env) (port : Option String)
    (req : Request .broadcast)
    (hpass : expressJson parses req = none)
    (h : req.authorization = some "Bearer ") :
    TOKEN env ≠ "" ∧
    TOKEN { INTERNAL_TOKEN := some "", PORT := port } = "secret" ∧
    app parses (TOKEN env) req = .sent { status := 401, body := "Unauthorized" } := by
  have hmis : req.authorization ≠ some ("Bearer " ++ TOKEN env) := by
    rw [h]
    intro heq
    have h2 : "Bearer " ++ "" = "Bearer " ++ TOKEN env := Option.some.inj heq
    exact TOKEN_ne_empty env (bearer_cancel h2).symm
  exact ⟨TOKEN_ne_empty env, TOKEN_empty port, app_of_mismatch hpass hmis⟩

theorem token_never_empty_witness :
    TOKEN { INTERNAL_TOKEN := some "", PORT := none } ≠ "" ∧
    TOKEN { INTERNAL_TOKEN := some "", PORT := none } = "secret" ∧
    app (fun _ => false) (TOKEN { INTERNAL_TOKEN := some "", PORT := none })
      ({ authorization := some "Bearer ", hasBody := true, jsonType := true,
         size := 0, body := "" } : Request .broadcast)
      = .sent { status := 401, body := "Unauthorized" } :=
  token_never_empty (fun _ => false) { INTERNAL_TOKEN := some "", PORT := none } none
    { authorization := some "Bearer ", hasBody := true, jsonType := true,
      size := 0, body := "" } (by decide) rfl

/-! ## Startup -/

/-- C7, evaluated on the code: the startup line is the line for port 8080 in
every environment; with PORT unset the server listens on 8080, and with
PORT=3000 it listens on 3000 while the line it logs is still the one for 8080
and not the one for 3000. -/
theorem startup_log_fixed :
    (∀ env : Env, startupLog env = portLine 8080) ∧
    (listenArg { INTERNAL_TOKEN := none, PORT := none }).port = some 8080 ∧
    (listenArg { INTERNAL_TOKEN := none, PORT := some "3000" }).port = some 3000 ∧
    startupLog { INTERNAL_TOKEN := none, PORT := some "3000" } = "internal API on :8080" ∧
    startupLog { INTERNAL_TOKEN := none, PORT := some "3000" } ≠ portLine 3000 := by
  have hline : portLine 8080 = "internal API on :8080" := by decide
  refine ⟨fun _ => ?_, by decide, by decide, by decide, by decide⟩
  rw [hline]
  rfl

/-! ## The request body -/

/-- C8, as stated, fails: two POSTs to /internal/broadcast with the same
Authorization header, the same token and a JSON content type, one with an empty
body and one with the body "x", get different answers, 204 from the handler and
400 from the JSON middleware, whatever `JSON.parse` accepts. -/
theorem malformed_body_rejected :
    ({ authorization := some "Bearer secret", hasBody := true, jsonType := true,
       size := 0, body := "" } : Request .broadcast).authorization
      = ({ authorization := some "Bearer secret", hasBody := true, jsonType := true,
           size := 1, body := "x" } : Request .broadcast).authorization ∧
    ∀ parses : String → Bool,
      app parses "secret"
        ({ authorization := some "Bearer secret", hasBody := true, jsonType := true,
           size := 0, body := "" } : Request .broadcast)
        = .sent { status := 204, body := "" } ∧
      app parses "secret"
        ({ authorization := some "Bearer secret", hasBody := true, jsonType := true,
           size := 1, body := "x" } : Request .broadcast)
        = .failed 400 ∧
      app parses "secret"
        ({ authorization := some "Bearer secret", hasBody := true, jsonType := true,
           size := 0, body := "" } : Request .broadcast)
        ≠ app parses "secret"
          ({ authorization := some "Bearer secret", hasBody := true, jsonType := true,
             size := 1, body := "x" } : Request .broadcast) := by
  refine ⟨rfl, fun parses => ?_⟩
  have h1 : expressJson parses
      ({ authorization := some "Bearer secret", hasBody := true, jsonType := true,
         size := 0, body := "" } : Request .broadcast) = none := by
    simp [expressJson, readBody, parse, utf8_start, limit]
  rw [app_of_match h1 (by decide), app_of_short parses "secret" (some "Bearer secret")]
  simp

/-- C8, amended: the response to a POST to /internal/broadcast depends on the
body only through the JSON middleware.  For any two such requests with the same
Authorization header (present or absent) and the same token, the responses are
identical when the middleware lets both through (no body, a content type other
than JSON, or a readable body that is empty or parses as a JSON object or
array).  A request the middleware refuses is answered with the status of the
refusal, 400, 413 or 415, before the handler runs, whatever its Authorization
header and the token: 400 for a readable body that is not JSON, 413 for a body
over 100kb, 415 for a charset that is not a utf- one. -/
theorem body_irrelevant_after_middleware (parses : String → Bool) (token : String)
    (r1 r2 : Request .broadcast)
    (hauth : r1.authorization = r2.authorization) :
    (expressJson parses r1 = none → expressJson parses r2 = none →
      app parses token r1 = app parses token r2) ∧
    (∀ status : Nat, expressJson parses r1 = some status →
      (status = 400 ∨ status = 413 ∨ status = 415) ∧
      ∀ (token2 : String) (auth2 : Option String),
        app parses token2 ({ r1 with authorization := auth2 } : Request .broadcast)
          = .failed status) ∧
    (r1.hasBody = true → r1.jsonType = true → r1.charset = "" → r1.coding = .identity →
      r1.size ≤ limit → r1.decodable = true → r1.intact = true →
      parse parses r1.body = false → app parses token r1 = .failed 400) ∧
    (r1.hasBody = true → r1.jsonType = true → r1.charset = "" → r1.coding = .identity →
      limit < r1.size → app parses token r1 = .failed 413) ∧
    (r1.hasBody = true → r1.jsonType = true → r1.charset ≠ "" →
      r1.charset.take 4 ≠ "utf-" → app parses token r1 = .failed 415) := by
  refine ⟨fun h1 h2 => ?_, fun status hs => ⟨expressJson_status hs, fun token2 auth2 => ?_⟩,
    ?_, ?_, ?_⟩
  · by_cases h : r1.authorization = some ("Bearer " ++ token)
    · rw [app_of_match h1 h, app_of_match h2 (hauth ▸ h)]
    · rw [app_of_mismatch h1 h, app_of_mismatch h2 (hauth ▸ h)]
  · exact app_of_reject token2 ((expressJson_authorization parses r1 auth2).trans hs)
  · intro hb hj hc hcod hs hd hi hp
    exact app_of_reject token (expressJson_of_malformed parses hb hj hc hcod hs hd hi hp)
  · intro hb hj hc hcod hs
    exact app_of_reject token (expressJson_of_large parses hb hj hc hcod hs)
  · intro hb hj hne hc
    exact app_of_reject token (expressJson_of_charset parses hb hj hne hc)

theorem body_irrelevant_after_middleware_witness :
    app (fun _ => true) "secret"
        ({ authorization := some "Bearer secret", hasBody := true, jsonType := true,
           size := 0, body := "" } : Request .broadcast)
      = app (fun _ => true) "secret"
        ({ authorization := some "Bearer secret", hasBody := true, jsonType := true,
           size := 2, body := "\x7b\x7d" } : Request .broadcast) :=
  (body_irrelevant_after_middleware (fun _ => true) "secret" _ _ rfl).1
    (by decide) (by decide)

/-! ## The token over the life of the process -/

theorem run_spec (parses : String → Bool) (s : Server) (reqs : List Incoming) :
    (s.run parses reqs).2 = s ∧
    (s.run parses reqs).1 = reqs.map (fun x => app parses s.token x.req) := by
  induction reqs with
  | nil => exact ⟨rfl, rfl⟩
  | cons req rest ih =>
    obtain ⟨ih1, ih2⟩ := ih
    constructor
    · simpa [Server.run, Server.handle] using ih1
    · simpa [Server.run, Server.handle] using ih2

/-- C9: handling a request leaves the token unchanged, so after every finite
sequence of requests (to either route, authorized or not) the state is the one
made at startup, the token in force after any number of them is the one read
from the environment at startup, and the outcome of each request is that of
the application on this request and the startup token alone. -/
theorem token_invariant (parses : String → Bool) (env : Env) (reqs : List Incoming) :
    (∀ (s : Server) (req : Incoming), (s.handle parses req).2 = s) ∧
    ((boot env).run parses reqs).2 = boot env ∧
    (∀ n : Nat, ((boot env).run parses (reqs.take n)).2.token = TOKEN env) ∧
    ((boot env).run parses reqs).1 = reqs.map (fun x => app parses (TOKEN env) x.req) ∧
    (∀ n : Nat, ((boot env).run parses reqs).1[n]? =
      (reqs[n]?).map (fun x => app parses (TOKEN env) x.req)) := by
  have hrun := run_spec parses (boot env) reqs
  refine ⟨fun _ _ => rfl, hrun.1, fun n => ?_, hrun.2, fun n => ?_⟩
  · rw [(run_spec parses (boot env) (reqs.take n)).1]
    rfl
  · rw [hrun.2, List.getElem?_map]
    rfl

end Broadcast
